import Mathlib

/-!
Verification development for the ebur128 Go bindings (oaiiae/ebur128-go).

The repository is a thin binding over the external libebur128 loudness
measurement engine.  The error translation, the negative-duration guards and
the call-forwarding surface live in `src/ebur128.go` and
`src/unnamed/part_000` and are embedded here directly.  The measurement
engine itself (filters, gating blocks, integration, peaks) is not part of
the repository's sources; where a claim depends on it, the engine is
modelled from the specification, as marked on each such definition.
-/

namespace Ebur128

/-- Return codes of the libebur128 error enum, declared through cgo in
`src/ebur128.go` (`EBUR128_SUCCESS` and the four error codes). -/
def EBUR128_SUCCESS : Int := 0

/-- `EBUR128_ERROR_NOMEM` from the libebur128 error enum. -/
def EBUR128_ERROR_NOMEM : Int := 1

/-- `EBUR128_ERROR_INVALID_MODE` from the libebur128 error enum. -/
def EBUR128_ERROR_INVALID_MODE : Int := 2

/-- `EBUR128_ERROR_INVALID_CHANNEL_INDEX` from the libebur128 error enum. -/
def EBUR128_ERROR_INVALID_CHANNEL_INDEX : Int := 3

/-- `EBUR128_ERROR_NO_CHANGE` from the libebur128 error enum. -/
def EBUR128_ERROR_NO_CHANGE : Int := 4

/-- The list of codes the libebur128 error enum declares. -/
def libCodes : List Int := [0, 1, 2, 3, 4]

/-- Go type `ebur128Error C.int` (both source files): an error value
wrapping a C return code. -/
structure ebur128Error where
  code : Int
deriving DecidableEq

/-- Go `error` values are nullable; `none` models the nil error.
`var ErrNomem error = ebur128Error(C.EBUR128_ERROR_NOMEM)`. -/
def ErrNomem : Option ebur128Error := some ⟨EBUR128_ERROR_NOMEM⟩

/-- `var ErrInvalidMode error = ebur128Error(C.EBUR128_ERROR_INVALID_MODE)`. -/
def ErrInvalidMode : Option ebur128Error := some ⟨EBUR128_ERROR_INVALID_MODE⟩

/-- `var ErrInvalidChannelIndex error = ebur128Error(C.EBUR128_ERROR_INVALID_CHANNEL_INDEX)`. -/
def ErrInvalidChannelIndex : Option ebur128Error := some ⟨EBUR128_ERROR_INVALID_CHANNEL_INDEX⟩

/-- `var ErrNoChange error = ebur128Error(C.EBUR128_ERROR_NO_CHANGE)`. -/
def ErrNoChange : Option ebur128Error := some ⟨EBUR128_ERROR_NO_CHANGE⟩

/-- `newError` from `src/ebur128.go`:
`if rc == C.EBUR128_SUCCESS { return nil }; return ebur128Error(rc)`. -/
def newError (rc : Int) : Option ebur128Error :=
  if rc = EBUR128_SUCCESS then none else some ⟨rc⟩

/-- `e` from `src/unnamed/part_000`: named return `err` starts nil;
`if rc != C.EBUR128_SUCCESS { err = ebur128Error(rc) }; return`. -/
def e (rc : Int) : Option ebur128Error :=
  if rc ≠ EBUR128_SUCCESS then some ⟨rc⟩ else none

/-- Outcome of a Go function call: either a normal return or a panic. -/
inductive GoResult (α : Type) where
  | panicked (msg : String) : GoResult α
  | ok (val : α) : GoResult α
deriving DecidableEq

/-- Whether a `GoResult` is a panic. -/
def isPanic {α : Type} : GoResult α → Bool
  | .panicked _ => true
  | .ok _ => false

/-- The `Error()` method of `ebur128Error` in `src/ebur128.go`: a switch over
the code with a success case and a default "unknown error" case. -/
def errorMsgMain (er : ebur128Error) : String :=
  if er.code = EBUR128_ERROR_NOMEM then ("ebur128: nomem")
  else if er.code = EBUR128_ERROR_INVALID_MODE then ("ebur128: invalid mode")
  else if er.code = EBUR128_ERROR_INVALID_CHANNEL_INDEX then ("ebur128: invalid channel index")
  else if er.code = EBUR128_ERROR_NO_CHANGE then ("ebur128: no change")
  else if er.code = EBUR128_SUCCESS then ("ebur128: success")
  else ("ebur128: unknown error")

/-- The `Error()` method of `ebur128Error` in `src/unnamed/part_000`: same
switch, except the success case panics. -/
def errorMsgP000 (er : ebur128Error) : GoResult String :=
  if er.code = EBUR128_ERROR_NOMEM then .ok ("ebur128: nomem")
  else if er.code = EBUR128_ERROR_INVALID_MODE then .ok ("ebur128: invalid mode")
  else if er.code = EBUR128_ERROR_INVALID_CHANNEL_INDEX then .ok ("ebur128: invalid channel index")
  else if er.code = EBUR128_ERROR_NO_CHANGE then .ok ("ebur128: no change")
  else if er.code = EBUR128_SUCCESS then .panicked ("ebur128: success is not an error")
  else .ok ("ebur128: unknown error")

/-- The four fixed messages of the known error codes. -/
def fourMessages : List String :=
  ["ebur128: nomem", "ebur128: invalid mode", "ebur128: invalid channel index",
   "ebur128: no change"]

/-- Go `time.Duration` is an `int64` count of nanoseconds;
`d.Milliseconds()` is `int64(d) / 1e6` (truncated toward zero) and the
`C.ulong(...)` conversion wraps it into a `uint64`. -/
def goMs (d : Int) : Nat := ((d.tdiv 1000000).emod (2 ^ 64)).toNat

/-- `SetMaxWindow` from `src/ebur128.go`: panics on a negative duration,
otherwise forwards the millisecond count to `ebur128_set_max_window`
(modelled as the function `lib` from the argument to the return code) and
translates the code with `newError`. -/
def SetMaxWindow (window : Int) (lib : Nat → Int) : GoResult (Option ebur128Error) :=
  if window < 0 then .panicked ("negative window duration")
  else .ok (newError (lib (goMs window)))

/-- `SetMaxHistory` from `src/ebur128.go`: panics on a negative duration,
otherwise forwards to `ebur128_set_max_history` and translates with
`newError`. -/
def SetMaxHistory (history : Int) (lib : Nat → Int) : GoResult (Option ebur128Error) :=
  if history < 0 then .panicked ("negative history duration")
  else .ok (newError (lib (goMs history)))

/-- `LoudnessWindow` from `src/ebur128.go`: panics on a negative duration,
otherwise forwards to `ebur128_loudness_window` (modelled as `lib`, giving
the return code and the written output value) and translates with
`newError`. -/
def LoudnessWindow (window : Int) (lib : Nat → Int × ℚ) : GoResult (ℚ × Option ebur128Error) :=
  if window < 0 then .panicked ("negative window duration")
  else .ok ((lib (goMs window)).2, newError ((lib (goMs window)).1))

/-- `SetMaxWindow` from `src/unnamed/part_000`: no guard, forwards the
(wrapped) millisecond count directly and translates with `e`. -/
def SetMaxWindowP000 (window : Int) (lib : Nat → Int) : GoResult (Option ebur128Error) :=
  .ok (e (lib (goMs window)))

/-- `SetMaxHistory` from `src/unnamed/part_000`: no guard, forwards the
(wrapped) millisecond count directly and translates with `e`. -/
def SetMaxHistoryP000 (history : Int) (lib : Nat → Int) : GoResult (Option ebur128Error) :=
  .ok (e (lib (goMs history)))

/-- `EBUR128_MODE_M = 1 << 0` from the libebur128 mode enum (cgo constants
`ModeM`, … in both source files). -/
def MODE_M : Nat := 1

/-- `EBUR128_MODE_S = (1 << 1) | EBUR128_MODE_M`. -/
def MODE_S : Nat := 2 ||| MODE_M

/-- `EBUR128_MODE_I = (1 << 2) | EBUR128_MODE_M`. -/
def MODE_I : Nat := 4 ||| MODE_M

/-- `EBUR128_MODE_LRA = (1 << 3) | EBUR128_MODE_S`. -/
def MODE_LRA : Nat := 8 ||| MODE_S

/-- `EBUR128_MODE_SAMPLE_PEAK = 1 << 4`. -/
def MODE_SAMPLE_PEAK : Nat := 16

/-- `EBUR128_MODE_TRUE_PEAK = (1 << 5) | EBUR128_MODE_SAMPLE_PEAK`. -/
def MODE_TRUE_PEAK : Nat := 32 ||| MODE_SAMPLE_PEAK

/-- `EBUR128_MODE_HISTOGRAM = 1 << 6`. -/
def MODE_HISTOGRAM : Nat := 64

/-- A mode bitset has a capability when all its bits are set
(`(mode & m) == m`, the capability check of the spec's §3 mode flags). -/
@[reducible]
def hasMode (mode m : Nat) : Prop := mode &&& m = m

/-- Coefficients of one biquad stage of the K-weighting filter
(spec §4.1: two-stage biquad IIR per ITU-R BS.1770-4; the numeric
coefficient design is a function of the sample rate and is kept as a
parameter of the state). -/
structure Biquad where
  b0 : ℚ
  b1 : ℚ
  b2 : ℚ
  a1 : ℚ
  a2 : ℚ

/-- State of one biquad stage: the two previous inputs and outputs
(spec §4.1: filter state persists across calls). -/
structure BiquadState where
  x1 : ℚ
  x2 : ℚ
  y1 : ℚ
  y2 : ℚ

/-- Per-channel filter state: the two cascaded stages. -/
structure ChannelFilter where
  s1 : BiquadState
  s2 : BiquadState

/-- The all-zero (freshly initialized) per-channel filter state. -/
def zeroCF : ChannelFilter := ⟨⟨0, 0, 0, 0⟩, ⟨0, 0, 0, 0⟩⟩

/-- Output of one biquad stage on input `x`:
`y = b0*x + b1*x1 + b2*x2 - a1*y1 - a2*y2`. -/
def biquadOut (c : Biquad) (s : BiquadState) (x : ℚ) : ℚ :=
  c.b0 * x + c.b1 * s.x1 + c.b2 * s.x2 - c.a1 * s.y1 - c.a2 * s.y2

/-- Next state of one biquad stage after consuming input `x`. -/
def biquadNext (c : Biquad) (s : BiquadState) (x : ℚ) : BiquadState :=
  ⟨x, s.x1, biquadOut c s x, s.y1⟩

/-- Output of the two cascaded stages on one sample. -/
def chanOut (c1 c2 : Biquad) (f : ChannelFilter) (x : ℚ) : ℚ :=
  biquadOut c2 f.s2 (biquadOut c1 f.s1 x)

/-- Next per-channel filter state after one sample. -/
def chanNext (c1 c2 : Biquad) (f : ChannelFilter) (x : ℚ) : ChannelFilter :=
  ⟨biquadNext c1 f.s1 x, biquadNext c2 f.s2 (biquadOut c1 f.s1 x)⟩

/-- Modelled from the spec: per-channel weighting (spec §4.3; surround
positions weighted 1.41, a dual-mono channel counted twice, unused
channels ignored).  Channel tags follow the libebur128 channel enum order
(0 unused, 1 left, …, 6 dual mono, 9–12 the ±060/±090 positions). -/
def weight (tag : Nat) : ℚ :=
  if tag = 0 then 0
  else if tag = 4 ∨ tag = 5 ∨ tag = 9 ∨ tag = 10 ∨ tag = 11 ∨ tag = 12 then 141 / 100
  else if tag = 6 then 2
  else 1

/-- One frame through all channel filters: returns the weighted sum of
squared filtered samples and the new filter states (spec §4.2–§4.3). -/
def stepChans (c1 c2 : Biquad) :
    List ChannelFilter → List Nat → List ℚ → ℚ × List ChannelFilter
  | f :: fs, t :: ts, x :: xs =>
    (weight t * chanOut c1 c2 f x ^ 2 + (stepChans c1 c2 fs ts xs).1,
     chanNext c1 c2 f x :: (stepChans c1 c2 fs ts xs).2)
  | fs, _, _ => (0, fs)

/-- Modelled from the spec: the measurement state of the external engine
(libebur128's `ebur128_state`, not under `src/`), per spec §3: channel
count, sample rate, mode bitset, channel map, per-channel filter state,
bounded audio buffer of weighted squared samples (newest first), the
finalized 400 ms gating-block energies and the short-term block energies
(both newest first), and the count of frames consumed since the last
(re)configuration.  `window` is the maximum window in milliseconds. -/
structure EState where
  mode : Nat
  channels : Nat
  samplerate : Nat
  window : Nat
  design : Nat → Biquad × Biquad
  channelMap : List Nat
  filters : List ChannelFilter
  buf : List ℚ
  blocks : List ℚ
  stBlocks : List ℚ
  count : Nat

/-- Frames in one 100 ms hop (spec §4.2). -/
def hopLen (st : EState) : Nat := st.samplerate / 10

/-- Frames in one 400 ms gating block (spec §4.2). -/
def blockLen (st : EState) : Nat := 4 * hopLen st

/-- Frames in one 3 s short-term window (spec §4.4). -/
def stLen (st : EState) : Nat := 30 * hopLen st

/-- Capacity of the audio buffer: enough for a gating block, a short-term
window and the configured maximum window. -/
def bufCap (st : EState) : Nat :=
  max (max (blockLen st) (stLen st)) (st.window * st.samplerate / 1000)

/-- Mean energy of the trailing `n` buffer entries, missing entries counting
as zero (the freshly initialized audio buffer is zero filled). -/
def intervalEnergy (l : List ℚ) (n : Nat) : ℚ := (l.take n).sum / n

/-- The filter pass of one frame: weighted squared sum and new filter
states, using the state's coefficient design at its sample rate. -/
def framePass (st : EState) (frame : List ℚ) : ℚ × List ChannelFilter :=
  stepChans (st.design st.samplerate).1 (st.design st.samplerate).2
    st.filters st.channelMap frame

/-- The audio buffer after one frame: the new weighted squared sum is
prepended and the buffer is trimmed to its capacity. -/
def newBuf (st : EState) (frame : List ℚ) : List ℚ :=
  ((framePass st frame).1 :: st.buf).take (bufCap st)

/-- Modelled from the spec: consuming one interleaved frame (spec §4.1,
§4.2): filter each channel's sample, append the weighted squared sum to the
audio buffer, and finalize a 400 ms block every 100 ms hop (and a 3 s
short-term block every 1 s) once enough samples accumulated. -/
def stepFrame (st : EState) (frame : List ℚ) : EState :=
  { st with
    filters := (framePass st frame).2,
    buf := newBuf st frame,
    blocks :=
      if blockLen st ≤ st.count + 1 ∧ (st.count + 1 - blockLen st) % hopLen st = 0 then
        intervalEnergy (newBuf st frame) (blockLen st) :: st.blocks
      else st.blocks,
    stBlocks :=
      if stLen st ≤ st.count + 1 ∧ (st.count + 1 - stLen st) % (10 * hopLen st) = 0 then
        intervalEnergy (newBuf st frame) (stLen st) :: st.stBlocks
      else st.stBlocks,
    count := st.count + 1 }

/-- Modelled from the spec: `ebur128_add_frames_*` (external engine): each
frame is consumed in order; the binding's `AddFrames*` variants only differ
in the scaling of the raw integer samples to `ℚ`, which is applied before
this point. -/
def addFrames (st : EState) (frames : List (List ℚ)) : EState :=
  frames.foldl stepFrame st

/-- The default channel map (spec §3 and the `SetChannel` documentation in
both source files): 0→Left, 1→Right, 2→Center, 3→Unused, 4→LeftSurround,
5→RightSurround, Unused beyond. -/
def defaultChannelMap (n : Nat) : List Nat :=
  (List.range n).map fun i =>
    if i = 0 then 1
    else if i = 1 then 2
    else if i = 2 then 3
    else if i = 3 then 0
    else if i = 4 then 4
    else if i = 5 then 5
    else 0

/-- Modelled from the spec: `ebur128_init` (external engine): fresh filter
state, empty buffers, default channel map; the maximum window defaults to
3 s with the short-term mode and 400 ms otherwise. -/
def initState (channels samplerate mode : Nat) (design : Nat → Biquad × Biquad) : EState :=
  { mode := mode, channels := channels, samplerate := samplerate,
    window := if mode &&& MODE_S = MODE_S then 3000 else 400,
    design := design,
    channelMap := defaultChannelMap channels,
    filters := List.replicate channels zeroCF,
    buf := [], blocks := [], stBlocks := [], count := 0 }

/-- Modelled from the spec: `ebur128_change_parameters` (external engine):
with an unchanged channel count and sample rate it returns `NoChange`
before touching any state; otherwise it resets the filter state and the
partial audio buffer, resets the channel map to the default when the
channel count changed, and keeps the accumulated block history. -/
def changeParameters (st : EState) (channels samplerate : Nat) :
    Option ebur128Error × EState :=
  if channels = st.channels ∧ samplerate = st.samplerate then
    (ErrNoChange, st)
  else
    (none,
     { st with channels := channels, samplerate := samplerate,
               channelMap :=
                 if channels = st.channels then st.channelMap
                 else defaultChannelMap channels,
               filters := List.replicate channels zeroCF,
               buf := [], count := 0 })

/-- A loudness value: negative infinity, or the finite value
`-0.691 + 10*log10 meanSquare` kept in the energy domain (spec §4.3's
loudness conversion; the logarithm is injective on positive energies, so a
finite loudness is represented by its mean square). -/
inductive Loudness where
  | negInf : Loudness
  | lufs (meanSquare : ℚ) : Loudness
deriving DecidableEq

/-- Energy to loudness: nonpositive energy is negative infinity
(spec §4.3: the result is negative infinity when the weighted mean square
is zero). -/
def loudnessOf (energy : ℚ) : Loudness :=
  if energy ≤ 0 then .negInf else .lufs energy

/-- Modelled from the spec: the absolute gating threshold -70 LUFS mapped to
the energy domain, `10^((0.691 - 70)/10) ≈ 1.1725e-7`, as a fixed positive
rational (spec §4.3). -/
def absoluteGateEnergy : ℚ := 11725 / 10 ^ 11

/-- Modelled from the spec: two-pass gated integration (spec §4.3): mean of
blocks above the absolute threshold, relative threshold 10 LU below it
(a factor 10 in the energy domain), integrated loudness as the mean of
blocks above the relative threshold; negative infinity when no block
survives. -/
def gatedLoudness (blocks : List ℚ) : Loudness :=
  let abov := blocks.filter fun en => decide (absoluteGateEnergy ≤ en)
  if abov = [] then .negInf
  else
    let relThresh := abov.sum / abov.length / 10
    let abov2 := blocks.filter fun en => decide (relThresh ≤ en)
    if abov2 = [] then .negInf
    else loudnessOf (abov2.sum / abov2.length)

/-- Modelled from the spec: `ebur128_loudness_momentary` (external engine):
requires the momentary capability; the energy of the trailing 400 ms
(spec §4.4: the single most recent 400 ms block). -/
def loudnessMomentary (st : EState) : Option ebur128Error × Loudness :=
  if st.mode &&& MODE_M = MODE_M then
    (none, loudnessOf (intervalEnergy st.buf (blockLen st)))
  else (ErrInvalidMode, .negInf)

/-- Modelled from the spec: `ebur128_loudness_global` (external engine):
requires the integrated capability; gated integration over the block
history (spec §4.3). -/
def loudnessGlobal (st : EState) : Option ebur128Error × Loudness :=
  if st.mode &&& MODE_I = MODE_I then (none, gatedLoudness st.blocks)
  else (ErrInvalidMode, .negInf)

/-- Modelled from the spec: `ebur128_loudness_window` (external engine): a
window larger than the configured maximum window is an `InvalidMode` error
(spec §4.4, §8); otherwise the energy of the trailing window. -/
def loudnessWindow (st : EState) (windowMs : Nat) : Option ebur128Error × Loudness :=
  if st.window < windowMs then (ErrInvalidMode, .negInf)
  else (none, loudnessOf (intervalEnergy st.buf (windowMs * st.samplerate / 1000)))

/-- Nearest-rank index of the `p`-th percentile in a sorted list of `n`
entries: the ceiling of `p% · n`, one-based, hence `⌈p·n/100⌉ - 1`
zero-based (spec §4.5's documented tie-break). -/
def rank (p n : Nat) : Nat := (p * n + 99) / 100 - 1

/-- Modelled from the spec: the loudness-range distribution endpoints
(spec §4.5): short-term energies above the absolute threshold, relative
threshold 20 LU below their mean (a factor 100 in the energy domain),
then the 10th and 95th percentile energies of the sorted survivors; the
LRA in LU is `10*log10` of their ratio. -/
def lraPair (sts : List ℚ) : ℚ × ℚ :=
  let abov := sts.filter fun en => decide (absoluteGateEnergy ≤ en)
  if abov = [] then (0, 0)
  else
    let relThresh := abov.sum / abov.length / 100
    let surv := List.insertionSort (· ≤ ·) (abov.filter fun en => decide (relThresh ≤ en))
    (surv.getD (rank 10 surv.length) 0, surv.getD (rank 95 surv.length) 0)

/-- Modelled from the spec: `ebur128_loudness_range` (external engine):
requires the LRA capability (spec §4.5, §8). -/
def loudnessRange (st : EState) : Option ebur128Error × (ℚ × ℚ) :=
  if st.mode &&& MODE_LRA = MODE_LRA then (none, lraPair st.stBlocks)
  else (ErrInvalidMode, (0, 0))

/-- Modelled from the spec: `ebur128_loudness_shortterm` (external engine):
requires the short-term capability; the loudness formula applied to the
trailing 3 s of blocks (spec §4.4 and the in-source `LoudnessShortterm`
contract "[ErrInvalidMode] if mode [ModeS] has not been set"). -/
def loudnessShortterm (st : EState) : Option ebur128Error × Loudness :=
  if st.mode &&& MODE_S = MODE_S then
    (none, loudnessOf (intervalEnergy st.buf (stLen st)))
  else (ErrInvalidMode, .negInf)

/-- Modelled from the spec: `ebur128_relative_threshold` (external engine):
requires the integrated capability (the in-source `RelativeThreshold`
contract "[ErrInvalidMode] if mode [ModeI] has not been set"); the relative
threshold is 10 LU below the mean of the blocks above the absolute gate
(a factor 10 in the energy domain, spec §4.3), -70 LUFS when no block
passes the absolute gate. -/
def relativeThreshold (st : EState) : Option ebur128Error × Loudness :=
  if st.mode &&& MODE_I = MODE_I then
    let abov := st.blocks.filter fun en => decide (absoluteGateEnergy ≤ en)
    if abov = [] then (none, .lufs absoluteGateEnergy)
    else (none, loudnessOf (abov.sum / abov.length / 10))
  else (ErrInvalidMode, .negInf)

/-- Maximum absolute value of a list of samples (zero when empty). -/
def absMax (l : List ℚ) : ℚ := l.foldr (fun x acc => max |x| acc) 0

/-- Modelled from the spec: the true-peak oversampling factor (§4.6): 4x
below 96 kHz, 2x below 192 kHz, unchanged at or above 192 kHz. -/
def oversampleFactor (samplerate : Nat) : Nat :=
  if samplerate < 96000 then 4 else if samplerate < 192000 then 2 else 1

/-- Modelled from the spec: a fixed polyphase FIR interpolator (§4.6, §9:
the interpolator design is implementation defined and must be chosen and
documented).  This design uses linear-interpolation phases: between
consecutive samples `a` and `b` it emits `((N-k)·a + k·b)/N` for
`k = 0, …, N-1`; phase `k = 0` is the identity, so every original sample
appears in the oversampled stream. -/
def interpolate (N : Nat) : List ℚ → List ℚ
  | [] => []
  | [a] => [a]
  | a :: b :: rest =>
    ((List.range N).map fun k => (((N - k : Nat) : ℚ) * a + (k : ℚ) * b) / N)
      ++ interpolate N (b :: rest)

/-- Modelled from the spec: the per-channel Peak Tracker registers
(spec §3, §4.6): all-time and since-last-call sample and true peaks, and
the fixed oversampling factor.  The tracker consumes raw frames directly
and channels are independent (spec §2), so one channel's samples are
tracked. -/
structure PTState where
  factor : Nat
  samplePeak : ℚ
  truePeak : ℚ
  prevSamplePeak : ℚ
  prevTruePeak : ℚ
deriving DecidableEq

/-- A freshly initialized peak tracker. -/
def initPT (factor : Nat) : PTState := ⟨factor, 0, 0, 0, 0⟩

/-- Modelled from the spec: one `AddFrames*` call through the Peak Tracker
(§4.6), with the since-last-call reset behavior taken from the in-source
contract of `PrevSamplePeak`/`PrevTruePeak` in `src/ebur128.go` ("maximum
… from the last call to [State.AddFramesShort] (and others)"), which the
external engine implements by clearing both registers at the start of each
add call: the `prev` registers hold the peaks of this call only, and the
all-time registers take the running maximum. -/
def addPeak (st : PTState) (frames : List ℚ) : PTState :=
  let ps := absMax frames
  let pt := absMax (interpolate st.factor frames)
  { st with prevSamplePeak := ps, prevTruePeak := pt,
            samplePeak := max st.samplePeak ps,
            truePeak := max st.truePeak pt }

/-- Modelled from the spec: `ebur128_sample_peak` (external engine):
requires the sample-peak capability (§4.6). -/
def samplePeakQ (mode : Nat) (st : PTState) : Option ebur128Error × ℚ :=
  if mode &&& MODE_SAMPLE_PEAK = MODE_SAMPLE_PEAK then (none, st.samplePeak)
  else (ErrInvalidMode, 0)

/-- Modelled from the spec: `ebur128_true_peak` (external engine):
requires the true-peak capability (§4.6). -/
def truePeakQ (mode : Nat) (st : PTState) : Option ebur128Error × ℚ :=
  if mode &&& MODE_TRUE_PEAK = MODE_TRUE_PEAK then (none, st.truePeak)
  else (ErrInvalidMode, 0)

/-- Modelled from the spec: `ebur128_prev_sample_peak` (external engine):
a read of the since-last-call register; reads do not mutate the state. -/
def prevSamplePeakQ (mode : Nat) (st : PTState) : Option ebur128Error × ℚ :=
  if mode &&& MODE_SAMPLE_PEAK = MODE_SAMPLE_PEAK then (none, st.prevSamplePeak)
  else (ErrInvalidMode, 0)

/-- Modelled from the spec: `ebur128_prev_true_peak` (external engine):
a read of the since-last-call register; reads do not mutate the state. -/
def prevTruePeakQ (mode : Nat) (st : PTState) : Option ebur128Error × ℚ :=
  if mode &&& MODE_TRUE_PEAK = MODE_TRUE_PEAK then (none, st.prevTruePeak)
  else (ErrInvalidMode, 0)

/-- The four error codes of the libebur128 error enum (the codes other than
success). -/
def libErrCodes : List Int :=
  [EBUR128_ERROR_NOMEM, EBUR128_ERROR_INVALID_MODE,
   EBUR128_ERROR_INVALID_CHANNEL_INDEX, EBUR128_ERROR_NO_CHANGE]

/-- All-zero measurement state contents: every filter state, buffer entry
and block energy is zero (the invariant that silence preserves). -/
def ZeroSt (st : EState) : Prop :=
  (∀ f ∈ st.filters, f = zeroCF) ∧ (∀ x ∈ st.buf, x = 0) ∧
  (∀ b ∈ st.blocks, b = 0) ∧ (∀ b ∈ st.stBlocks, b = 0)

/-- A concrete biquad used in witness states. -/
def bqW : Biquad := ⟨1, 0, 0, 0, 0⟩

/-- A concrete witness measurement state: one channel at a 10 Hz sample rate
(so a gating block is 4 frames) in sample-peak mode with a 400 ms maximum
window. -/
def wSt : EState :=
  { mode := 16, channels := 1, samplerate := 10, window := 400,
    design := fun _ => (bqW, bqW), channelMap := [1], filters := [zeroCF],
    buf := [], blocks := [], stBlocks := [], count := 0 }

/-- A successful `newError` translation determines the wrapped code and
rules out success. -/
theorem newError_some_code (rc : Int) (er : ebur128Error)
    (h : newError rc = some er) : er.code = rc ∧ rc ≠ EBUR128_SUCCESS := by
  unfold newError at h
  split at h
  · simp at h
  · rename_i hne
    injection h with h2
    subst h2
    exact ⟨rfl, hne⟩

/-- A successful `e` translation determines the wrapped code and rules out
success. -/
theorem e_some_code (rc : Int) (er : ebur128Error)
    (h : e rc = some er) : er.code = rc ∧ rc ≠ EBUR128_SUCCESS := by
  unfold e at h
  split at h
  · rename_i hne
    injection h with h2
    subst h2
    exact ⟨rfl, hne⟩
  · simp at h

/-- C1: for every return code of the libebur128 error enum, the translated
Go error (through `newError` of `src/ebur128.go` and through `e` of
`src/unnamed/part_000`) is nil exactly on `EBUR128_SUCCESS`, and otherwise
is one of the four exported errors `ErrNomem`, `ErrInvalidMode`,
`ErrInvalidChannelIndex`, `ErrNoChange` — no code is swallowed and no error
outside that closed set is produced. -/
theorem c1_closed_error_set (rc : Int) (h : rc ∈ libCodes) :
    (newError rc = none ↔ rc = EBUR128_SUCCESS) ∧
    (e rc = none ↔ rc = EBUR128_SUCCESS) ∧
    (newError rc = none ∨
      newError rc ∈ [ErrNomem, ErrInvalidMode, ErrInvalidChannelIndex, ErrNoChange]) ∧
    (e rc = none ∨
      e rc ∈ [ErrNomem, ErrInvalidMode, ErrInvalidChannelIndex, ErrNoChange]) := by
  simp only [libCodes, List.mem_cons, List.not_mem_nil, or_false] at h
  rcases h with rfl | rfl | rfl | rfl | rfl <;> decide

/-- C1 witness: the concrete code 2 translates to `ErrInvalidMode`,
inside the closed set. -/
theorem c1_closed_error_set_witness :
    (newError 2 = none ↔ (2 : Int) = EBUR128_SUCCESS) ∧
    newError 2 ∈ [ErrNomem, ErrInvalidMode, ErrInvalidChannelIndex, ErrNoChange] := by
  have h := c1_closed_error_set 2 (by decide)
  exact ⟨h.1, h.2.2.1.resolve_left (by decide)⟩

/-- C9: the error-translation functions of the two source versions are
extensionally equal: for every code, `newError` (src/ebur128.go) and `e`
(src/unnamed/part_000) agree, both being nil on success and
`ebur128Error(rc)` otherwise. -/
theorem c9_translation_equiv (rc : Int) :
    newError rc = e rc ∧
    newError rc = (if rc = EBUR128_SUCCESS then none else some ⟨rc⟩) := by
  unfold newError e
  by_cases h : rc = EBUR128_SUCCESS <;> simp [h]

/-- C10: every error actually produced by `newError` or `e` wraps a
non-success code; on such errors the `Error()` method of
`src/unnamed/part_000` never reaches its panic branch, and for the four
known codes it returns the same fixed message as the `Error()` method of
`src/ebur128.go`, drawn from the four fixed messages. -/
theorem c10_success_unreachable (rc : Int) (er : ebur128Error)
    (h : newError rc = some er ∨ e rc = some er) :
    er.code ≠ EBUR128_SUCCESS ∧
    isPanic (errorMsgP000 er) = false ∧
    (er.code ∈ libErrCodes →
      errorMsgP000 er = GoResult.ok (errorMsgMain er) ∧
      errorMsgMain er ∈ fourMessages) := by
  have hc : er.code ≠ EBUR128_SUCCESS := by
    rcases h with h | h
    · rw [(newError_some_code rc er h).1]
      exact (newError_some_code rc er h).2
    · rw [(e_some_code rc er h).1]
      exact (e_some_code rc er h).2
  refine ⟨hc, ?_, ?_⟩
  · unfold errorMsgP000
    split_ifs <;> simp_all [isPanic]
  · intro hm
    simp only [libErrCodes, List.mem_cons, List.not_mem_nil, or_false] at hm
    rcases hm with h1 | h1 | h1 | h1 <;>
      simp [errorMsgP000, errorMsgMain, h1, fourMessages,
            EBUR128_ERROR_NOMEM, EBUR128_ERROR_INVALID_MODE,
            EBUR128_ERROR_INVALID_CHANNEL_INDEX, EBUR128_ERROR_NO_CHANGE,
            EBUR128_SUCCESS]

/-- C10 witness: the error translated from code 3 does not panic when
formatted and yields one of the four fixed messages. -/
theorem c10_success_unreachable_witness :
    isPanic (errorMsgP000 ⟨3⟩) = false ∧ errorMsgMain ⟨3⟩ ∈ fourMessages := by
  have h := c10_success_unreachable 3 ⟨3⟩ (Or.inl (by decide))
  exact ⟨h.2.1, (h.2.2 (by decide)).2⟩

/-- C2 counterexample: the claim says the window/history configuration
operations panic on a negative duration, citing `SetMaxWindow` of
`src/unnamed/part_000`; that variant does not panic — at -1 ms it performs
the library call and returns normally. -/
theorem c2_counterexample :
    isPanic (SetMaxWindowP000 (-1000000) fun _ => 0) = false := rfl

/-- C2 (amended): in `src/ebur128.go`, `SetMaxWindow`, `SetMaxHistory` and
`LoudnessWindow` panic on every negative duration before calling the
library and never return it as an error value; the `src/unnamed/part_000`
variants of `SetMaxWindow` and `SetMaxHistory` do not guard and forward the
converted duration to the library. -/
theorem c2_negative_duration (d : Int) (hd : d < 0) (lib : Nat → Int)
    (libw : Nat → Int × ℚ) :
    isPanic (SetMaxWindow d lib) = true ∧
    isPanic (SetMaxHistory d lib) = true ∧
    isPanic (LoudnessWindow d libw) = true ∧
    isPanic (SetMaxWindowP000 d lib) = false ∧
    isPanic (SetMaxHistoryP000 d lib) = false := by
  refine ⟨?_, ?_, ?_, rfl, rfl⟩ <;>
    simp [SetMaxWindow, SetMaxHistory, LoudnessWindow, hd, isPanic]

/-- C2 witness: at -7 ns the main-version `SetMaxWindow` panics while the
part_000 variant returns normally. -/
theorem c2_negative_duration_witness :
    isPanic (SetMaxWindow (-7) fun _ => 0) = true ∧
    isPanic (SetMaxWindowP000 (-7) fun _ => 0) = false := by
  have h := c2_negative_duration (-7) (by decide) (fun _ => 0) (fun _ => (0, 0))
  exact ⟨h.1, h.2.2.2.1⟩

/-- The peak register fold is nonnegative. -/
theorem absMax_nonneg (l : List ℚ) : 0 ≤ absMax l := by
  induction l with
  | nil => simp [absMax]
  | cons a l ih =>
    simp only [absMax, List.foldr_cons] at ih ⊢
    exact le_trans ih (le_max_right _ _)

/-- Every member's absolute value is below the peak register. -/
theorem le_absMax (l : List ℚ) (x : ℚ) : x ∈ l → |x| ≤ absMax l := by
  induction l with
  | nil => intro hx; simp at hx
  | cons a l ih =>
    intro hx
    rw [List.mem_cons] at hx
    simp only [absMax, List.foldr_cons]
    rcases hx with rfl | hx
    · exact le_max_left _ _
    · exact le_trans (ih hx) (le_max_right _ _)

/-- The peak register is below any nonnegative bound on the members. -/
theorem absMax_le (l : List ℚ) (c : ℚ) (hc : 0 ≤ c) :
    (∀ x ∈ l, |x| ≤ c) → absMax l ≤ c := by
  induction l with
  | nil => intro _; simpa [absMax] using hc
  | cons a l ih =>
    intro h
    simp only [absMax, List.foldr_cons]
    exact max_le (h a (by simp)) (ih fun x hx => h x (by simp [hx]))

/-- The peak over a list is below the peak over any list containing its
members. -/
theorem absMax_subset_le (l1 l2 : List ℚ) (h : ∀ x ∈ l1, x ∈ l2) :
    absMax l1 ≤ absMax l2 :=
  absMax_le l1 _ (absMax_nonneg l2) fun x hx => le_absMax l2 x (h x hx)

/-- Phase 0 of the interpolator is the identity, so every original sample
appears in the oversampled stream. -/
theorem mem_interpolate (N : Nat) (hN : 0 < N) :
    ∀ (l : List ℚ), ∀ x ∈ l, x ∈ interpolate N l
  | [] => by intro x hx; simp at hx
  | [a] => by
    intro x hx
    simp at hx
    simp [interpolate, hx]
  | a :: b :: rest => by
    intro x hx
    have hNz : (N : ℚ) ≠ 0 := Nat.cast_ne_zero.mpr (Nat.pos_iff_ne_zero.mp hN)
    rw [List.mem_cons] at hx
    simp only [interpolate]
    rcases hx with rfl | hx
    · refine List.mem_append_left _ (List.mem_map.mpr ⟨0, List.mem_range.mpr hN, ?_⟩)
      rw [Nat.sub_zero]
      push_cast
      field_simp
    · exact List.mem_append_right _ (mem_interpolate N hN (b :: rest) x hx)

/-- One add call keeps the sample peak below the true peak and does not
change the oversampling factor. -/
theorem addPeak_le (st : PTState) (frames : List ℚ) (hN : 0 < st.factor)
    (h : st.samplePeak ≤ st.truePeak) :
    (addPeak st frames).samplePeak ≤ (addPeak st frames).truePeak ∧
    (addPeak st frames).factor = st.factor := by
  have hint : absMax frames ≤ absMax (interpolate st.factor frames) :=
    absMax_subset_le _ _ fun x hx => mem_interpolate st.factor hN frames x hx
  exact ⟨max_le_max h hint, rfl⟩

/-- Any sequence of add calls keeps the sample peak below the true peak. -/
theorem foldl_addPeak_le (calls : List (List ℚ)) :
    ∀ (st : PTState), 0 < st.factor → st.samplePeak ≤ st.truePeak →
    (calls.foldl addPeak st).samplePeak ≤ (calls.foldl addPeak st).truePeak := by
  induction calls with
  | nil => intro st _ h; exact h
  | cons c calls ih =>
    intro st hN h
    have h1 := addPeak_le st c hN h
    have hN2 : 0 < (addPeak st c).factor := by rw [h1.2]; exact hN
    exact ih (addPeak st c) hN2 h1.1

/-- C3 counterexample: the claim says the since-last-call peak accumulates
across add calls until read; after adding `[1/2]` then `[1/4]` with no read
in between the peak tracker reports 1/4, not the accumulated 1/2. -/
theorem c3_counterexample :
    (addPeak (addPeak (initPT 4) [1 / 2]) [1 / 4]).prevSamplePeak ≠ 1 / 2 := by
  have h : (addPeak (addPeak (initPT 4) [1 / 2]) [1 / 4]).prevSamplePeak
      = max |(1 : ℚ) / 4| 0 := by
    simp [addPeak, absMax]
  rw [h, abs_of_nonneg (by norm_num : (0 : ℚ) ≤ 1 / 4),
      max_eq_left (by norm_num : (0 : ℚ) ≤ 1 / 4)]
  norm_num

/-- C3 (amended): the since-last-call peak registers are reset on each
`AddFrames*` call, not on reads: after an add call the `prev` sample and
true peaks depend only on the frames of that call (and the fixed
oversampling factor), matching the in-source contract "maximum … from the
last call to AddFramesShort (and others)"; reads are pure and do not mutate
the registers. -/
theorem c3_prev_peak_last_call (st1 st2 : PTState) (frames : List ℚ)
    (hf : st1.factor = st2.factor) :
    (addPeak st1 frames).prevSamplePeak = (addPeak st2 frames).prevSamplePeak ∧
    (addPeak st1 frames).prevTruePeak = (addPeak st2 frames).prevTruePeak ∧
    (addPeak st1 frames).prevSamplePeak = absMax frames := by
  simp [addPeak, hf]

/-- C3 witness: the since-last-call sample peak after adding `[2, 3]` is the
same whether or not an earlier add call happened. -/
theorem c3_prev_peak_last_call_witness :
    (addPeak (initPT 4) [2, 3]).prevSamplePeak
      = (addPeak (addPeak (initPT 4) [9]) [2, 3]).prevSamplePeak ∧
    (addPeak (initPT 4) [2, 3]).prevSamplePeak = absMax [2, 3] := by
  have h := c3_prev_peak_last_call (initPT 4) (addPeak (initPT 4) [9]) [2, 3] rfl
  exact ⟨h.1, h.2.2⟩

/-- C7: with both peak capabilities enabled, after any sequence of add
calls the true peak reported for a channel is at least its sample peak —
the oversampled maximum never falls below the unfiltered maximum. -/
theorem c7_true_peak_ge (sr mode : Nat) (calls : List (List ℚ))
    (hSP : hasMode mode MODE_SAMPLE_PEAK) (hTP : hasMode mode MODE_TRUE_PEAK) :
    (samplePeakQ mode (calls.foldl addPeak (initPT (oversampleFactor sr)))).2 ≤
    (truePeakQ mode (calls.foldl addPeak (initPT (oversampleFactor sr)))).2 := by
  have hf : 0 < oversampleFactor sr := by
    unfold oversampleFactor
    split_ifs <;> norm_num
  have hSP2 : mode &&& MODE_SAMPLE_PEAK = MODE_SAMPLE_PEAK := hSP
  have hTP2 : mode &&& MODE_TRUE_PEAK = MODE_TRUE_PEAK := hTP
  simp only [samplePeakQ, truePeakQ, if_pos hSP2, if_pos hTP2]
  exact foldl_addPeak_le calls (initPT (oversampleFactor sr)) hf le_rfl

/-- C7 witness: a concrete two-sample signal at 48 kHz with both peak modes
enabled. -/
theorem c7_true_peak_ge_witness :
    (samplePeakQ 48 ([[1, -2]].foldl addPeak (initPT (oversampleFactor 48000)))).2 ≤
    (truePeakQ 48 ([[1, -2]].foldl addPeak (initPT (oversampleFactor 48000)))).2 :=
  c7_true_peak_ge 48000 48 [[1, -2]] (by decide) (by decide)

/-- C4: reconfiguring with the current channel count and sample rate
returns `ErrNoChange` and returns the state untouched — in particular the
filter state, the partial audio buffer, the channel map and the block
history are all preserved. -/
theorem c4_no_change (st : EState) (channels samplerate : Nat)
    (h1 : channels = st.channels) (h2 : samplerate = st.samplerate) :
    changeParameters st channels samplerate = (ErrNoChange, st) ∧
    (changeParameters st channels samplerate).2.filters = st.filters ∧
    (changeParameters st channels samplerate).2.buf = st.buf ∧
    (changeParameters st channels samplerate).2.channelMap = st.channelMap ∧
    (changeParameters st channels samplerate).2.blocks = st.blocks := by
  simp [changeParameters, h1, h2]

/-- C4 witness: the concrete witness state keeps its configuration. -/
theorem c4_no_change_witness :
    changeParameters wSt 1 10 = (ErrNoChange, wSt) :=
  (c4_no_change wSt 1 10 rfl rfl).1

/-- C5: a window query larger than the configured maximum window returns
`ErrInvalidMode`, and every capability-gated query returns `ErrInvalidMode`
whenever its mode was not enabled at creation: loudness range without the
LRA mode, global loudness and relative threshold without the integrated
mode, momentary without the momentary mode, short-term without the
short-term mode, and the four peak queries without their sample-peak or
true-peak modes. -/
theorem c5_invalid_mode (st : EState) (windowMs : Nat) (pt : PTState) :
    (st.window < windowMs → (loudnessWindow st windowMs).1 = ErrInvalidMode) ∧
    (¬ hasMode st.mode MODE_LRA → (loudnessRange st).1 = ErrInvalidMode) ∧
    (¬ hasMode st.mode MODE_I → (loudnessGlobal st).1 = ErrInvalidMode) ∧
    (¬ hasMode st.mode MODE_M → (loudnessMomentary st).1 = ErrInvalidMode) ∧
    (¬ hasMode st.mode MODE_S → (loudnessShortterm st).1 = ErrInvalidMode) ∧
    (¬ hasMode st.mode MODE_I → (relativeThreshold st).1 = ErrInvalidMode) ∧
    (¬ hasMode st.mode MODE_SAMPLE_PEAK → (samplePeakQ st.mode pt).1 = ErrInvalidMode) ∧
    (¬ hasMode st.mode MODE_TRUE_PEAK → (truePeakQ st.mode pt).1 = ErrInvalidMode) ∧
    (¬ hasMode st.mode MODE_SAMPLE_PEAK → (prevSamplePeakQ st.mode pt).1 = ErrInvalidMode) ∧
    (¬ hasMode st.mode MODE_TRUE_PEAK → (prevTruePeakQ st.mode pt).1 = ErrInvalidMode) := by
  refine ⟨fun h => ?_, fun h => ?_, fun h => ?_, fun h => ?_, fun h => ?_,
    fun h => ?_, fun h => ?_, fun h => ?_, fun h => ?_, fun h => ?_⟩
  · simp [loudnessWindow, h]
  · simp [loudnessRange, if_neg h]
  · simp [loudnessGlobal, if_neg h]
  · simp [loudnessMomentary, if_neg h]
  · simp [loudnessShortterm, if_neg h]
  · simp [relativeThreshold, if_neg h]
  · simp [samplePeakQ, if_neg h]
  · simp [truePeakQ, if_neg h]
  · simp [prevSamplePeakQ, if_neg h]
  · simp [prevTruePeakQ, if_neg h]

/-- C5 witness: on the witness state (sample-peak mode only, 400 ms maximum
window) a 500 ms window query and the LRA, global, momentary, short-term,
relative-threshold and true-peak queries all fail with `ErrInvalidMode`;
on the same state with only the momentary mode the sample-peak queries
fail too. -/
theorem c5_invalid_mode_witness :
    (loudnessWindow wSt 500).1 = ErrInvalidMode ∧
    (loudnessRange wSt).1 = ErrInvalidMode ∧
    (loudnessGlobal wSt).1 = ErrInvalidMode ∧
    (loudnessMomentary wSt).1 = ErrInvalidMode ∧
    (loudnessShortterm wSt).1 = ErrInvalidMode ∧
    (relativeThreshold wSt).1 = ErrInvalidMode ∧
    (samplePeakQ 1 (initPT 4)).1 = ErrInvalidMode ∧
    (truePeakQ wSt.mode (initPT 4)).1 = ErrInvalidMode ∧
    (prevSamplePeakQ 1 (initPT 4)).1 = ErrInvalidMode ∧
    (prevTruePeakQ wSt.mode (initPT 4)).1 = ErrInvalidMode := by
  obtain ⟨a1, a2, a3, a4, a5, a6, -, a8, -, a10⟩ :=
    c5_invalid_mode wSt 500 (initPT 4)
  obtain ⟨-, -, -, -, -, -, b7, -, b9, -⟩ :=
    c5_invalid_mode { wSt with mode := 1 } 0 (initPT 4)
  exact ⟨a1 (by decide), a2 (by decide), a3 (by decide), a4 (by decide),
    a5 (by decide), a6 (by decide), b7 (by decide), a8 (by decide),
    b9 (by decide), a10 (by decide)⟩

/-- Processing frames add-call by add-call is folding over the
concatenation. -/
theorem addFrames_append (st : EState) (l1 l2 : List (List ℚ)) :
    addFrames st (l1 ++ l2) = addFrames (addFrames st l1) l2 := by
  simp [addFrames, List.foldl_append]

/-- Folding add calls over a partition equals one add call on the joined
frame list. -/
theorem foldl_addFrames_join (p : List (List (List ℚ))) :
    ∀ st : EState, p.foldl addFrames st = addFrames st p.flatten := by
  induction p with
  | nil => intro st; rfl
  | cons c p ih =>
    intro st
    have hj : (c :: p).flatten = c ++ p.flatten := rfl
    rw [hj, addFrames_append]
    exact ih (addFrames st c)

/-- C8: two partitions of the same frames into add calls yield the same
final measurement state, and in particular the same integrated loudness
(in this exact-arithmetic model the equality is exact). -/
theorem c8_chunking_invariance (st : EState) (p1 p2 : List (List (List ℚ)))
    (h : p1.flatten = p2.flatten) :
    loudnessGlobal (p1.foldl addFrames st) = loudnessGlobal (p2.foldl addFrames st) ∧
    p1.foldl addFrames st = p2.foldl addFrames st := by
  have he : p1.foldl addFrames st = p2.foldl addFrames st := by
    rw [foldl_addFrames_join p1 st, foldl_addFrames_join p2 st, h]
  exact ⟨by rw [he], he⟩

/-- C8 witness: feeding two frames in one add call or in two separate add
calls gives the same integrated loudness. -/
theorem c8_chunking_invariance_witness :
    loudnessGlobal ([[[1], [2]]].foldl addFrames wSt)
      = loudnessGlobal ([[[1]], [[2]]].foldl addFrames wSt) :=
  (c8_chunking_invariance wSt [[[1], [2]]] [[[1]], [[2]]] rfl).1

/-- A biquad stage in the zero state maps a zero sample to zero. -/
theorem biquadOut_zero (c : Biquad) : biquadOut c ⟨0, 0, 0, 0⟩ 0 = 0 := by
  simp [biquadOut]

/-- A biquad stage in the zero state stays in the zero state on a zero
sample. -/
theorem biquadNext_zero (c : Biquad) : biquadNext c ⟨0, 0, 0, 0⟩ 0 = ⟨0, 0, 0, 0⟩ := by
  simp [biquadNext, biquadOut_zero]

/-- The two-stage channel filter in the zero state maps zero to zero. -/
theorem chanOut_zero (c1 c2 : Biquad) : chanOut c1 c2 zeroCF 0 = 0 := by
  simp [chanOut, zeroCF, biquadOut_zero]

/-- The two-stage channel filter in the zero state stays zero on a zero
sample. -/
theorem chanNext_zero (c1 c2 : Biquad) : chanNext c1 c2 zeroCF 0 = zeroCF := by
  simp [chanNext, zeroCF, biquadOut_zero, biquadNext_zero]

/-- A zero frame through all-zero channel filters yields zero weighted
energy and leaves every filter in the zero state. -/
theorem stepChans_zero (c1 c2 : Biquad) :
    ∀ (fs : List ChannelFilter) (ts : List Nat) (xs : List ℚ),
    (∀ f ∈ fs, f = zeroCF) → (∀ x ∈ xs, x = 0) →
    (stepChans c1 c2 fs ts xs).1 = 0 ∧
    ∀ f ∈ (stepChans c1 c2 fs ts xs).2, f = zeroCF := by
  intro fs
  induction fs with
  | nil =>
    intro ts xs _ _
    cases ts <;> cases xs <;> simp [stepChans]
  | cons f fs ih =>
    intro ts xs hf hx
    cases ts with
    | nil => exact ⟨rfl, hf⟩
    | cons t ts =>
      cases xs with
      | nil => exact ⟨rfl, hf⟩
      | cons x xs =>
        have hf0 : f = zeroCF := hf f (List.mem_cons_self f fs)
        have hx0 : x = 0 := hx x (List.mem_cons_self x xs)
        obtain ⟨ih1, ih2⟩ := ih ts xs
          (fun g hg => hf g (List.mem_cons_of_mem f hg))
          (fun y hy => hx y (List.mem_cons_of_mem x hy))
        subst hf0
        subst hx0
        constructor
        · simp [stepChans, chanOut_zero, ih1]
        · intro g hg
          simp only [stepChans, List.mem_cons] at hg
          rcases hg with hg | hg
          · rw [hg, chanNext_zero]
          · exact ih2 g hg

/-- The mean energy over an all-zero buffer is zero. -/
theorem intervalEnergy_zero (l : List ℚ) (n : Nat) (h : ∀ x ∈ l, x = 0) :
    intervalEnergy l n = 0 := by
  unfold intervalEnergy
  rw [List.sum_eq_zero fun x hx => h x (List.take_subset n l hx), zero_div]

/-- One zero frame preserves the all-zero state and the configuration. -/
theorem stepFrame_zero (st : EState) (frame : List ℚ)
    (h : ZeroSt st) (hfr : ∀ x ∈ frame, x = 0) :
    ZeroSt (stepFrame st frame) ∧ (stepFrame st frame).mode = st.mode ∧
    (stepFrame st frame).samplerate = st.samplerate := by
  obtain ⟨h1, h2, h3, h4⟩ := h
  have hs := stepChans_zero (st.design st.samplerate).1 (st.design st.samplerate).2
      st.filters st.channelMap frame h1 hfr
  have hbuf : ∀ x ∈ newBuf st frame, x = 0 := by
    intro x hx
    have hx2 : x ∈ (framePass st frame).1 :: st.buf :=
      List.take_subset _ _ hx
    rw [List.mem_cons] at hx2
    rcases hx2 with rfl | hx2
    · exact hs.1
    · exact h2 x hx2
  refine ⟨⟨hs.2, hbuf, ?_, ?_⟩, rfl, rfl⟩
  · intro b hb
    simp only [stepFrame] at hb
    split at hb
    · rw [List.mem_cons] at hb
      rcases hb with rfl | hb
      · exact intervalEnergy_zero _ _ hbuf
      · exact h3 b hb
    · exact h3 b hb
  · intro b hb
    simp only [stepFrame] at hb
    split at hb
    · rw [List.mem_cons] at hb
      rcases hb with rfl | hb
      · exact intervalEnergy_zero _ _ hbuf
      · exact h4 b hb
    · exact h4 b hb

/-- Any number of zero frames preserves the all-zero state and the
configuration. -/
theorem addFrames_zero (frames : List (List ℚ)) :
    ∀ (st : EState), ZeroSt st → (∀ fr ∈ frames, ∀ x ∈ fr, x = 0) →
    ZeroSt (addFrames st frames) ∧ (addFrames st frames).mode = st.mode ∧
    (addFrames st frames).samplerate = st.samplerate := by
  induction frames with
  | nil => intro st h _; exact ⟨h, rfl, rfl⟩
  | cons fr frames ih =>
    intro st h hfr
    have h1 := stepFrame_zero st fr h (hfr fr (List.mem_cons_self fr frames))
    have h2 := ih (stepFrame st fr) h1.1
      fun g hg x hx => hfr g (List.mem_cons_of_mem fr hg) x hx
    have he : addFrames st (fr :: frames) = addFrames (stepFrame st fr) frames := rfl
    rw [he]
    exact ⟨h2.1, h2.2.1.trans h1.2.1, h2.2.2.trans h1.2.2⟩

/-- A freshly initialized state is all zero. -/
theorem initState_zero (ch sr mode : Nat) (design : Nat → Biquad × Biquad) :
    ZeroSt (initState ch sr mode design) := by
  refine ⟨?_, ?_, ?_, ?_⟩ <;> intro x hx <;> simp [initState] at hx
  exact hx.2

/-- Gated integration over all-zero blocks is negative infinity: no block
passes the positive absolute gate. -/
theorem gatedLoudness_zero (blocks : List ℚ) (h : ∀ b ∈ blocks, b = 0) :
    gatedLoudness blocks = .negInf := by
  have hfil : blocks.filter (fun en => decide (absoluteGateEnergy ≤ en)) = [] := by
    rw [List.filter_eq_nil_iff]
    intro b hb
    rw [h b hb]
    simp only [decide_eq_true_eq, absoluteGateEnergy]
    norm_num
  simp [gatedLoudness, hfil]

/-- C6: with the momentary and integrated modes enabled, feeding at least
400 ms of all-zero frames (and nothing else) into a fresh state yields a
momentary and an integrated loudness of negative infinity, since the
weighted mean square of silence is zero. -/
theorem c6_silence (ch sr mode n : Nat) (design : Nat → Biquad × Biquad)
    (hM : hasMode mode MODE_M) (hI : hasMode mode MODE_I)
    (hn : 4 * (sr / 10) ≤ n) :
    loudnessMomentary (addFrames (initState ch sr mode design)
        (List.replicate n (List.replicate ch 0))) = (none, Loudness.negInf) ∧
    loudnessGlobal (addFrames (initState ch sr mode design)
        (List.replicate n (List.replicate ch 0))) = (none, Loudness.negInf) := by
  have hz := addFrames_zero (List.replicate n (List.replicate ch 0))
      (initState ch sr mode design) (initState_zero ch sr mode design)
      (fun fr hfr x hx => by
        rw [List.eq_of_mem_replicate hfr] at hx
        exact List.eq_of_mem_replicate hx)
  obtain ⟨⟨hf, hb, hbl, hst⟩, hmode, hsr⟩ := hz
  have hmode2 : (addFrames (initState ch sr mode design)
      (List.replicate n (List.replicate ch 0))).mode = mode := hmode
  constructor
  · unfold loudnessMomentary
    rw [hmode2, if_pos hM, intervalEnergy_zero _ _ hb]
    simp [loudnessOf]
  · unfold loudnessGlobal
    rw [hmode2, if_pos hI, gatedLoudness_zero _ hbl]

/-- C6 witness: one channel at a 10 Hz sample rate in momentary+integrated
mode, fed 4 zero frames (400 ms of silence). -/
theorem c6_silence_witness :
    hasMode 5 MODE_M ∧ hasMode 5 MODE_I ∧ 4 * (10 / 10) ≤ 4 ∧
    loudnessMomentary (addFrames (initState 1 10 5 fun _ => (bqW, bqW))
        (List.replicate 4 (List.replicate 1 0))) = (none, Loudness.negInf) := by
  have h := c6_silence 1 10 5 4 (fun _ => (bqW, bqW)) (by decide) (by decide)
    (by norm_num)
  exact ⟨by decide, by decide, by norm_num, h.1⟩

end Ebur128
